import Mathlib

/-
Verification of the horse-runner game simulation core.

The definitions below are a shallow embedding of the per-frame game
simulation: numbers are rationals, the ambient random number generator is
made explicit (every call site of the RNG becomes a rational parameter in
the unit interval), and the per-frame mutation of the game state object is
expressed as a pure state-transition function.

The embedding follows the latest revision of each module:
 - collision helpers (checkCollision, checkPlatformLanding,
   checkPlatformWallCollision) from the collision helper module;
 - the frame update (gravity, platform pass, block clearing, drowning,
   ground clamp, speed factor, speed update, world shift, spawn, despawn,
   distance accrual, collision pass) from the game-loop component;
 - the spawn helpers (generateFruit, generateMushroom, generateKey,
   generateStar, generateTerrain, spawnNewObjects, createInitialObjects)
   and the collision effect dispatcher (handleCollisionEffects) from the
   game-logic module;
 - the weighted-table object spawner (ObjectSpawner) with its collectible
   and terrain tables;
 - the refactored physics resolver (updateHorsePhysics).  That module
   imports a ramp-landing helper whose definition is not in the repository;
   the resolver is therefore parameterized by that helper.
-/

namespace HorseRunner

/-! ## Constants (from the game constants module) -/

def GAME_WIDTH : ℚ := 800
def GAME_HEIGHT : ℚ := 400
def GROUND_Y : ℚ := 300
def HORSE_WIDTH : ℚ := 40
def HORSE_HEIGHT : ℚ := 30
def DUCK_HEIGHT : ℚ := 20
def GRAVITY : ℚ := 8/10
def JUMP_FORCE : ℚ := -15
def PLATFORM_HEIGHT : ℚ := 40
def INITIAL_SPEED : ℚ := 4
def MIN_SPEED : ℚ := 1
def LANDING_THRESHOLD : ℚ := 15
def DROWNING_ANIMATION_DURATION : ℚ := 1000
def DROWNING_BLOCK_DELAY : ℚ := 200
def FRUIT_SPEED_BOOST_BASE : ℚ := 1/2
def FRUIT_SPEED_BOOST_MAX : ℚ := 3
def MUSHROOM_SPEED_REDUCTION : ℚ := 3/10
def MUSHROOM_SPAWN_CHANCE : ℚ := 15/100
def KEY_SPAWN_CHANCE : ℚ := 8/100
def SPEED_FACTOR_INCREASE_RATE : ℚ := 2/10000
def MAX_SPEED_FACTOR : ℚ := 5/2
def MIN_OBSTACLE_SPACING : ℚ := 150
def MAX_OBSTACLE_SPACING : ℚ := 400

/-! ## Data model (from the game types module; the extended variants ramp,
bridge and logPile of earlier revisions are kept so that the refactored
physics resolver can be embedded in full) -/

inductive EntityType where
  | fruit
  | obstacle
  | star
  | key
  | waterHole
  | lowBarrier
  | highBarrier
  | platform
  | floatingPlatform
  | mushroom
  | ramp
  | bridge
  | logPile
  deriving DecidableEq, Repr

structure Entity where
  x : ℚ
  y : ℚ
  width : ℚ
  height : ℚ
  type : EntityType
  collected : Bool := false
  platformLevel : Option ℕ := none
  isRideable : Bool := false
  deriving DecidableEq, Repr

structure Horse where
  x : ℚ
  y : ℚ
  velocityY : ℚ
  isDucking : Bool
  isJumping : Bool
  currentPlatformLevel : ℕ
  isBlocked : Bool
  isDrowning : Bool
  drowningTimer : ℚ
  deriving DecidableEq, Repr

structure GameState where
  horse : Horse
  gameObjects : List Entity
  speed : ℚ
  baseSpeed : ℚ
  speedBoost : ℚ
  speedFactor : ℚ
  score : ℚ
  distance : ℚ
  keys : ℕ
  gameRunning : Bool
  gameStarted : Bool
  gamePaused : Bool
  deriving DecidableEq, Repr

/-- Horse hit-box height: duck height while ducking, stand height otherwise. -/
def horseHeightOf (h : Horse) : ℚ :=
  if h.isDucking then DUCK_HEIGHT else HORSE_HEIGHT

/-! ## Collision helpers (from the collision helper module) -/

/-- Basic horse-vs-object overlap test (half-open on the horizontal edges and
the top edge, inclusive on the horse's bottom edge). -/
def checkCollision (h : Horse) (obj : Entity) : Bool :=
  decide (h.x < obj.x + obj.width) &&
  decide (h.x + HORSE_WIDTH > obj.x) &&
  decide (h.y < obj.y + obj.height) &&
  decide (h.y + horseHeightOf h ≥ obj.y)

/-- Platform landing test: horizontal overlap, bottom edge inside the landing
tolerance band around the platform top, and non-negative vertical velocity. -/
def checkPlatformLanding (h : Horse) (platform : Entity) : Bool :=
  let horseBottom := h.y + horseHeightOf h
  let platformTop := platform.y
  let horizontalOverlap :=
    decide (h.x < platform.x + platform.width) &&
    decide (h.x + HORSE_WIDTH > platform.x)
  let isLandingOnTop :=
    decide (horseBottom ≥ platformTop - LANDING_THRESHOLD) &&
    decide (horseBottom ≤ platformTop + 5) &&
    decide (h.velocityY ≥ 0)
  horizontalOverlap && isLandingOnTop

/-- Platform wall test; for floating platforms it is gated so that a horse
whose bottom is below the platform walks underneath without collision. -/
def checkPlatformWallCollision (h : Horse) (platform : Entity) : Bool :=
  let horseBottom := h.y + horseHeightOf h
  let platformTop := platform.y
  if platform.type = EntityType.floatingPlatform ∧
      ¬ (horseBottom ≤ platformTop + 15) then
    false
  else
    let atPlatformLevel := decide (horseBottom > platformTop + 5)
    decide (h.x + HORSE_WIDTH ≥ platform.x) &&
    decide (h.x < platform.x + 10) &&
    atPlatformLevel

/-! ## Spawn helpers (from the game-logic module).  Every call to the
ambient random number generator becomes an explicit rational parameter,
intended to range over the unit interval. -/

/-- Fruit generator: one random selects the height band, a second random the
offset inside the band. -/
def generateFruit (spawnX rBand rOff : ℚ) : Entity :=
  let fruitY :=
    if rBand < 3/10 then GROUND_Y - 10 - rOff * 15
    else if rBand < 6/10 then GROUND_Y - 25 - rOff * 25
    else GROUND_Y - 50 - rOff * 35
  { x := spawnX, y := fruitY, width := 15, height := 15, type := .fruit }

/-- Mushroom generator (slightly different height bands than fruit). -/
def generateMushroom (spawnX rBand rOff : ℚ) : Entity :=
  let mushroomY :=
    if rBand < 4/10 then GROUND_Y - 15 - rOff * 20
    else if rBand < 7/10 then GROUND_Y - 35 - rOff * 20
    else GROUND_Y - 55 - rOff * 20
  { x := spawnX, y := mushroomY, width := 15, height := 15, type := .mushroom }

/-- Key generator: always airborne. -/
def generateKey (spawnX rOff : ℚ) : Entity :=
  { x := spawnX, y := GROUND_Y - 60 - rOff * 30, width := 16, height := 16,
    type := .key }

/-- Star generator. -/
def generateStar (spawnX : ℚ) : Entity :=
  { x := spawnX + 50, y := GROUND_Y - 70, width := 12, height := 12,
    type := .star }

/-- Floating platform generator of the game-logic module. -/
def glGenerateFloatingPlatform (spawnX rW rH rL : ℚ) : Entity :=
  { x := spawnX + 100
    y := GROUND_Y - (80 + rH * 60)
    width := 60 + rW * 40
    height := 25
    type := .floatingPlatform
    platformLevel := some ((Int.floor (rL * 3)).toNat + 1)
    isRideable := true }

/-- Terrain generator of the game-logic module: one random selects the kind,
further randoms feed the width and (for floating platforms) height/level. -/
def glGenerateTerrain (spawnX rT rW rH rL : ℚ) : Entity :=
  if rT < 12/100 then
    { x := spawnX + 100, y := GROUND_Y, width := 50,
      height := GAME_HEIGHT - GROUND_Y, type := .waterHole }
  else if rT < 25/100 then
    { x := spawnX + 100, y := GROUND_Y - 50, width := 15, height := 30,
      type := .lowBarrier }
  else if rT < 35/100 then
    { x := spawnX + 100, y := GROUND_Y - 60, width := 20, height := 60,
      type := .highBarrier }
  else if rT < 45/100 then
    { x := spawnX + 100, y := GROUND_Y - 40, width := 20, height := 40,
      type := .obstacle }
  else if rT < 6/10 then
    { x := spawnX + 100, y := GROUND_Y - PLATFORM_HEIGHT,
      width := 80 + rW * 60, height := PLATFORM_HEIGHT,
      type := .platform, platformLevel := some 1, isRideable := true }
  else if rT < 75/100 then
    { x := spawnX + 100, y := GROUND_Y - PLATFORM_HEIGHT * 2,
      width := 60 + rW * 40, height := PLATFORM_HEIGHT * 2,
      type := .platform, platformLevel := some 2, isRideable := true }
  else if rT < 88/100 then
    { x := spawnX + 100, y := GROUND_Y - PLATFORM_HEIGHT * 3,
      width := 40 + rW * 40, height := PLATFORM_HEIGHT * 3,
      type := .platform, platformLevel := some 3, isRideable := true }
  else
    glGenerateFloatingPlatform spawnX rW rH rL

/-- The random draws one spawn-cycle invocation of `spawnNewObjects`
consumes. -/
structure SpawnRands where
  fruitGate : ℚ
  fruitBand : ℚ
  fruitOff : ℚ
  mushGate : ℚ
  mushBand : ℚ
  mushOff : ℚ
  keyGate : ℚ
  keyOff : ℚ
  terrainGate : ℚ
  terrainKind : ℚ
  terrainWidth : ℚ
  floatHeight : ℚ
  floatLevel : ℚ
  starGate : ℚ
  deriving DecidableEq, Repr

/-- Frontier: maximum x among active entities, with the source's fallback. -/
def rightmostX (objs : List Entity) : ℚ :=
  objs.foldl (fun m o => max m o.x) (GAME_WIDTH - 500)

/-- Spawn pass of the game-logic module: when the frontier is close to the
right edge, append a batch drawn by independent gates. -/
def spawnNewObjects (gameObjects : List Entity) (speedFactor : ℚ)
    (r : SpawnRands) : List Entity :=
  let rX := rightmostX gameObjects
  let spacing :=
    min (MIN_OBSTACLE_SPACING +
          ((speedFactor - 1) * (MAX_OBSTACLE_SPACING - MIN_OBSTACLE_SPACING)) / 2)
        MAX_OBSTACLE_SPACING
  if rX < GAME_WIDTH + 100 then
    let spawnX := max (rX + spacing) (GAME_WIDTH + 50)
    let newObjects :=
      (if r.fruitGate < 7/10 then
        [generateFruit spawnX r.fruitBand r.fruitOff] else []) ++
      (if r.mushGate < MUSHROOM_SPAWN_CHANCE then
        [generateMushroom (spawnX + 25) r.mushBand r.mushOff] else []) ++
      (if r.keyGate < KEY_SPAWN_CHANCE then
        [generateKey (spawnX + 50) r.keyOff] else []) ++
      (if r.terrainGate < 1/2 then
        [glGenerateTerrain spawnX r.terrainKind r.terrainWidth
          r.floatHeight r.floatLevel] else []) ++
      (if r.starGate < 2/10 then [generateStar spawnX] else [])
    gameObjects ++ newObjects
  else gameObjects

/-- Initial object layout (three fruits, obstacles after even indices). -/
def createInitialObjects : List Entity :=
  [ { x := GAME_WIDTH + 200, y := GROUND_Y - 25, width := 15, height := 15,
      type := .fruit }
  , { x := GAME_WIDTH + 400, y := GROUND_Y - 25, width := 15, height := 15,
      type := .fruit }
  , { x := GAME_WIDTH + 500, y := GROUND_Y - 40, width := 20, height := 40,
      type := .obstacle }
  , { x := GAME_WIDTH + 600, y := GROUND_Y - 25, width := 15, height := 15,
      type := .fruit } ]

/-! ## Collision effect dispatcher (from the game-logic module).  The source
returns a partial-state update that the loop merges into the current state;
the embedding returns the merged state directly. -/

def handleCollisionEffects (s : GameState) (obj : Entity) : GameState :=
  match obj.type with
  | .fruit =>
      let boostAmount := FRUIT_SPEED_BOOST_BASE * s.speedFactor
      { s with score := s.score + 10
               speedBoost := min FRUIT_SPEED_BOOST_MAX (s.speedBoost + boostAmount) }
  | .star => { s with score := s.score + 50 }
  | .key => { s with keys := s.keys + 1, score := s.score + 25 }
  | .mushroom =>
      let scaledReduction := MUSHROOM_SPEED_REDUCTION * s.speedFactor
      { s with speedBoost := max (-1) (s.speedBoost - scaledReduction) }
  | .obstacle => { s with gameRunning := false }
  | .highBarrier => { s with gameRunning := false }
  | .waterHole =>
      if s.horse.isDrowning then s
      else { s with horse := { s.horse with isDrowning := true, drowningTimer := 0 } }
  | .lowBarrier =>
      if s.horse.isDucking then s else { s with gameRunning := false }
  | .platform => s
  | .floatingPlatform => s
  | .ramp => s
  | .bridge => s
  | .logPile => s

/-! ## Per-frame update (from the game-loop component).  The frame body is
split into the pre-collision pipeline and the collision pass, composed in
`gameLoopStep`. -/

/-- Accumulator of the platform pass: the horse being mutated, the current
speed, and the two flags the pass reports. -/
structure PhysicsAcc where
  horse : Horse
  speed : ℚ
  landedOnPlatform : Bool
  hitPlatformWall : Bool
  deriving DecidableEq, Repr

/-- One iteration of the platform pass.  Only entities of type `platform`
with the rideable flag are considered; the landing test runs first on the
current (already gravity-updated, possibly already snapped) horse, then the
wall test on the possibly snapped horse.  The one-time speed penalty is
keyed on the pre-frame blocked flag. -/
def platformStep (prevBlocked : Bool) (acc : PhysicsAcc) (obj : Entity) :
    PhysicsAcc :=
  if obj.type = EntityType.platform ∧ obj.isRideable then
    let acc1 :=
      if checkPlatformLanding acc.horse obj then
        { acc with
          horse := { acc.horse with
            y := obj.y - horseHeightOf acc.horse
            velocityY := 0
            isJumping := false
            currentPlatformLevel := obj.platformLevel.getD 0 }
          landedOnPlatform := true }
      else acc
    if checkPlatformWallCollision acc1.horse obj then
      { acc1 with
        hitPlatformWall := true
        horse := { acc1.horse with isBlocked := true }
        speed := if prevBlocked then acc1.speed
                 else max MIN_SPEED (acc1.speed * (7/10)) }
    else acc1
  else acc

/-- The speed/boost update of the frame (runs unconditionally): on positive
boost, decrement the boost and recompute the speed from base, boost and
speed factor; otherwise apply natural decay with a floor of 2 and snap to
the factor-scaled base speed once at or below base speed.  Returns the new
(speedBoost, speed) pair. -/
def speedUpdate (speedBoost baseSpeed speed speedFactor : ℚ) : ℚ × ℚ :=
  if speedBoost > 0 then
    let b := speedBoost - 2/100
    (b, (baseSpeed + b) * speedFactor)
  else
    let sp := max 2 (speed - 5/1000)
    (speedBoost, if sp ≤ baseSpeed then baseSpeed * speedFactor else sp)

/-- Gravity integration: skipped entirely while drowning, otherwise the
velocity is incremented first and the position moved by the new velocity. -/
def gravityStage (h : Horse) : Horse :=
  if h.isDrowning then h
  else
    let vy := h.velocityY + GRAVITY
    { h with velocityY := vy, y := h.y + vy }

/-- The platform pass over the entity sequence. -/
def platformPass (prevBlocked : Bool) (objs : List Entity) (h : Horse)
    (speed : ℚ) : PhysicsAcc :=
  objs.foldl (platformStep prevBlocked)
    { horse := h, speed := speed, landedOnPlatform := false
      hitPlatformWall := false }

/-- Block clearing: a horse blocked last frame with no wall hit this frame
and not drowning resumes. -/
def clearBlockStage (prevBlocked hitWall : Bool) (h : Horse) : Horse :=
  if prevBlocked = true ∧ hitWall = false ∧ h.isDrowning = false then
    { h with isBlocked := false }
  else h

/-- Drowning sub-state machine: increment the timer by the nominal 16ms
frame, force the block once past the block delay, interpolate the sink, and
end the game once the timer reaches the full duration. -/
def drowningStage (h : Horse) (running : Bool) : Horse × Bool :=
  if h.isDrowning then
    let timer := h.drowningTimer + 16
    let blocked :=
      if timer ≥ DROWNING_BLOCK_DELAY ∧ h.isBlocked = false then true
      else h.isBlocked
    let sinkAmount := timer / DROWNING_ANIMATION_DURATION * 60
    ( { h with drowningTimer := timer, isBlocked := blocked
               y := GROUND_Y - HORSE_HEIGHT + sinkAmount }
    , if timer ≥ DROWNING_ANIMATION_DURATION then false else running )
  else (h, running)

/-- Ground clamp: only without a platform landing this frame and not
drowning. -/
def groundStage (landed : Bool) (h : Horse) : Horse :=
  if landed = false ∧ h.isDrowning = false then
    let targetGroundY := GROUND_Y - horseHeightOf h
    if h.y ≥ targetGroundY then
      { h with y := targetGroundY, velocityY := 0, isJumping := false
               currentPlatformLevel := 0 }
    else h
  else h

/-- Difficulty curve: speed factor from the distance, saturating. -/
def frameSpeedFactor (distance : ℚ) : ℚ :=
  min MAX_SPEED_FACTOR (1 + distance * SPEED_FACTOR_INCREASE_RATE)

/-- The frame pipeline before the collision pass: gravity, platform pass,
block clearing, drowning, ground clamp, speed factor, speed update, world
shift, spawn, despawn, distance accrual. -/
def preCollisionState (prev : GameState) (r : SpawnRands) : GameState :=
  let horse0 := gravityStage prev.horse
  let acc := platformPass prev.horse.isBlocked prev.gameObjects horse0 prev.speed
  let horse1 := clearBlockStage prev.horse.isBlocked acc.hitPlatformWall acc.horse
  let horse2running := drowningStage horse1 prev.gameRunning
  let horse3 := groundStage acc.landedOnPlatform horse2running.1
  let speedFactor := frameSpeedFactor prev.distance
  let boostSpeed := speedUpdate prev.speedBoost prev.baseSpeed acc.speed speedFactor
  let objs1 :=
    if horse3.isBlocked = false then
      prev.gameObjects.map (fun o => { o with x := o.x - boostSpeed.2 })
    else prev.gameObjects
  let objs2 := spawnNewObjects objs1 speedFactor r
  let objs3 := objs2.filter (fun o => decide (o.x > -100))
  let distance1 :=
    if horse3.isBlocked = false then
      prev.distance + ((Int.floor (boostSpeed.2 / 2) : ℤ) : ℚ)
    else prev.distance
  { prev with
    horse := horse3
    gameObjects := objs3
    speed := boostSpeed.2
    speedBoost := boostSpeed.1
    speedFactor := speedFactor
    distance := distance1
    gameRunning := horse2running.2 }

/-- One iteration of the collision pass: an uncollected overlapping entity
is marked collected unless it is a platform or a water hole, and its typed
effect is merged into the state. -/
def collisionStep (s : GameState) (obj : Entity) : GameState × Entity :=
  if obj.collected = false ∧ checkCollision s.horse obj = true then
    let obj' :=
      if obj.type ≠ EntityType.platform ∧ obj.type ≠ EntityType.waterHole then
        { obj with collected := true }
      else obj
    (handleCollisionEffects s obj', obj')
  else (s, obj)

/-- The collision pass folded over the entity sequence in order, returning
the final state and the entities with updated collected flags. -/
def collisionFoldAux (acc : GameState) : List Entity → GameState × List Entity
  | [] => (acc, [])
  | e :: rest =>
    let se := collisionStep acc e
    let tail := collisionFoldAux se.1 rest
    (tail.1, se.2 :: tail.2)

/-- The collision pass over a state's own entity sequence. -/
def collisionPass (s : GameState) : GameState :=
  let res := collisionFoldAux s s.gameObjects
  { res.1 with gameObjects := res.2 }

/-- One full frame of the game loop: the early guard, the pre-collision
pipeline, then the collision pass. -/
def gameLoopStep (prev : GameState) (r : SpawnRands) : GameState :=
  if prev.gameStarted = false ∨ prev.gameRunning = false ∨ prev.gamePaused = true
  then prev
  else collisionPass (preCollisionState prev r)

/-! ## Input intents (from the game-loop component) -/

/-- Standing-surface height for a platform level. -/
def expectedYForLevel (level : ℕ) : ℚ :=
  if level > 0 then GROUND_Y - HORSE_HEIGHT - PLATFORM_HEIGHT * level
  else GROUND_Y - HORSE_HEIGHT

/-- Jump intent: gated on started/running/unpaused, then on the horse being
at (or below, within tolerance above) the standing surface of its current
platform level. -/
def jump (s : GameState) : GameState :=
  if s.gameStarted = true ∧ s.gameRunning = true ∧ s.gamePaused = false then
    let expectedY := expectedYForLevel s.horse.currentPlatformLevel
    if s.horse.y ≥ expectedY - 5 then
      { s with horse := { s.horse with
          velocityY := JUMP_FORCE, isJumping := true, isDucking := false } }
    else s
  else s

/-- Duck-start intent: gated on started/running/unpaused. -/
def startDuck (s : GameState) : GameState :=
  if s.gameStarted = true ∧ s.gameRunning = true ∧ s.gamePaused = false then
    { s with horse := { s.horse with isDucking := true } }
  else s

/-- Duck-stop intent: unconditional. -/
def stopDuck (s : GameState) : GameState :=
  { s with horse := { s.horse with isDucking := false } }

/-- Pause toggle: gated on started/running only. -/
def togglePause (s : GameState) : GameState :=
  if s.gameStarted = true ∧ s.gameRunning = true then
    { s with gamePaused := !s.gamePaused }
  else s

/-! ## Refactored physics resolver (from the game-physics module).  The
module's updater object accumulates pending horse changes; the embedding
carries those pending values in an accumulator.  All per-entity tests use
the pre-frame horse, exactly as the source passes its `horse` argument.
The ramp-landing helper the module imports has no definition in the
repository, so the resolver takes it as a parameter. -/

/-- Result shape of the (missing) ramp-landing helper: a flag and an
optional surface height. -/
structure RampResult where
  isOnRamp : Bool
  rampY : Option ℚ
  deriving DecidableEq, Repr

/-- Pending horse fields plus the pass flags, mirroring the updater's
accumulated changes. -/
structure ResolverAcc where
  y : ℚ
  velocityY : ℚ
  isJumping : Bool
  currentPlatformLevel : ℕ
  isBlocked : Bool
  speed : ℚ
  landedOnPlatform : Bool
  hitPlatformWall : Bool
  deriving DecidableEq, Repr

/-- One iteration of the resolver's entity loop. -/
def updateHorsePhysicsObj (rampCheck : Horse → Entity → RampResult)
    (horse : Horse) (speed0 : ℚ) (acc : ResolverAcc) (obj : Entity) :
    ResolverAcc :=
  if obj.type = EntityType.ramp ∧ obj.isRideable then
    let rampResult := rampCheck horse obj
    match rampResult.isOnRamp, rampResult.rampY with
    | true, some ry =>
        { acc with y := ry, velocityY := 0, isJumping := false
                   currentPlatformLevel := 0, landedOnPlatform := true }
    | _, _ => acc
  else if (obj.type = EntityType.platform ∨ obj.type = EntityType.floatingPlatform ∨
           obj.type = EntityType.bridge) ∧ obj.isRideable then
    let acc1 :=
      if checkPlatformLanding horse obj then
        { acc with
          y := obj.y - horseHeightOf horse
          velocityY := 0
          isJumping := false
          currentPlatformLevel := obj.platformLevel.getD 0
          landedOnPlatform := true }
      else acc
    if checkPlatformWallCollision horse obj then
      { acc1 with
        hitPlatformWall := true
        isBlocked := true
        speed := if horse.isBlocked then acc1.speed
                 else max MIN_SPEED (speed0 * (7/10)) }
    else acc1
  else acc

/-- The resolver: gravity integration (skipped while drowning) followed by
the entity loop. -/
def updateHorsePhysics (rampCheck : Horse → Entity → RampResult)
    (horse : Horse) (gameObjects : List Entity) (speed0 : ℚ) : ResolverAcc :=
  let init : ResolverAcc :=
    if horse.isDrowning then
      { y := horse.y, velocityY := horse.velocityY
        isJumping := horse.isJumping
        currentPlatformLevel := horse.currentPlatformLevel
        isBlocked := horse.isBlocked, speed := speed0
        landedOnPlatform := false, hitPlatformWall := false }
    else
      { y := horse.y + (horse.velocityY + GRAVITY)
        velocityY := horse.velocityY + GRAVITY
        isJumping := horse.isJumping
        currentPlatformLevel := horse.currentPlatformLevel
        isBlocked := horse.isBlocked, speed := speed0
        landedOnPlatform := false, hitPlatformWall := false }
  gameObjects.foldl (updateHorsePhysicsObj rampCheck horse speed0) init

/-! ## Weighted-table object spawner (from the object-spawner module, the
revision whose generators all return a single entity).  Table entries keep
the declared order and weights; the generator column is embedded as a tag
dispatched by a run function, with the generators of the objects modules. -/

namespace CollectibleObjects

/-- Fruit generator of the collectibles module (wider boxes, other bands
than the game-logic one). -/
def generateFruit (spawnX rBand rOff : ℚ) : Entity :=
  let fruitY :=
    if rBand < 3/10 then GROUND_Y - 25 - rOff * 15
    else if rBand < 7/10 then GROUND_Y - 45 - rOff * 20
    else GROUND_Y - 80 - rOff * 35
  { x := spawnX, y := fruitY, width := 25, height := 25, type := .fruit }

/-- Star generator of the collectibles module. -/
def generateStar (spawnX rOff : ℚ) : Entity :=
  { x := spawnX, y := GROUND_Y - 60 - rOff * 40, width := 30, height := 30,
    type := .star }

/-- Key generator of the collectibles module. -/
def generateKey (spawnX rOff : ℚ) : Entity :=
  { x := spawnX, y := GROUND_Y - 35 - rOff * 20, width := 20, height := 20,
    type := .key }

/-- Mushroom generator of the collectibles module. -/
def generateMushroom (spawnX rOff : ℚ) : Entity :=
  { x := spawnX, y := GROUND_Y - 25 - rOff * 10, width := 25, height := 25,
    type := .mushroom }

end CollectibleObjects

namespace ObstacleObjects

/-- Water hole generator of the obstacles module. -/
def generateWaterHole (spawnX rW : ℚ) : Entity :=
  { x := spawnX, y := GROUND_Y, width := 60 + rW * 30, height := 100,
    type := .waterHole }

/-- Low barrier generator of the obstacles module. -/
def generateLowBarrier (spawnX rW rH : ℚ) : Entity :=
  let barrierHeight := 30 + rH * 15
  { x := spawnX, y := GROUND_Y - barrierHeight, width := 20 + rW * 20,
    height := barrierHeight, type := .lowBarrier }

/-- High barrier generator of the obstacles module. -/
def generateHighBarrier (spawnX rW rH : ℚ) : Entity :=
  let barrierHeight := 60 + rH * 20
  { x := spawnX, y := GROUND_Y - barrierHeight, width := 15 + rW * 15,
    height := barrierHeight, type := .highBarrier }

/-- Wall obstacle generator of the obstacles module. -/
def generateObstacle (spawnX rW rH : ℚ) : Entity :=
  let obstacleHeight := 50 + rH * 20
  { x := spawnX, y := GROUND_Y - obstacleHeight, width := 20 + rW * 15,
    height := obstacleHeight, type := .obstacle }

end ObstacleObjects

namespace TerrainObjects

/-- Platform generator of the terrain module. -/
def generatePlatform (spawnX : ℚ) (level : ℕ) (rW : ℚ) : Entity :=
  let platformHeight : ℚ := 40 * level
  { x := spawnX, y := GROUND_Y - platformHeight, width := 40 + rW * 100,
    height := platformHeight, type := .platform,
    platformLevel := some level, isRideable := true }

/-- Floating platform generator of the terrain module. -/
def generateFloatingPlatform (spawnX rW rL rH : ℚ) : Entity :=
  let level : ℕ := 1 + (Int.floor (rL * 3)).toNat
  let baseHeight : ℚ := 40 * level
  let floatingHeight := baseHeight + 20 + rH * 30
  { x := spawnX, y := GROUND_Y - floatingHeight, width := 60 + rW * 80,
    height := 25, type := .floatingPlatform,
    platformLevel := some level, isRideable := true }

/-- Ramp generator of the terrain module. -/
def generateRamp (spawnX rW rH : ℚ) : Entity :=
  let rampHeight := 20 + rH * 20
  { x := spawnX, y := GROUND_Y - rampHeight, width := 80 + rW * 40,
    height := rampHeight, type := .ramp, isRideable := true }

/-- Bridge generator of the terrain module. -/
def generateBridge (spawnX rW rY : ℚ) : Entity :=
  { x := spawnX, y := GROUND_Y - 40 - rY * 30, width := 100 + rW * 60,
    height := 15, type := .bridge, isRideable := true }

/-- Log pile generator of the terrain module. -/
def generateLogPile (spawnX rW rH : ℚ) : Entity :=
  let logHeight := 25 + rH * 15
  { x := spawnX, y := GROUND_Y - logHeight, width := 70 + rW * 30,
    height := logHeight, type := .logPile }

end TerrainObjects

/-- Tags standing for the generator column of the collectible table. -/
inductive CollectibleTag where
  | fruit
  | mushroom
  | key
  | star
  deriving DecidableEq, Repr

/-- Tags standing for the generator column of the terrain table. -/
inductive TerrainTag where
  | waterHole
  | lowBarrier
  | highBarrier
  | obstacle
  | platform1
  | platform2
  | platform3
  | floatingPlatform
  | ramp
  | bridge
  | logPile
  deriving DecidableEq, Repr

/-- The collectible spawn table, weights in declared order. -/
def collectibleTable : List (ℚ × CollectibleTag) :=
  [ (7/10, .fruit)
  , (MUSHROOM_SPAWN_CHANCE, .mushroom)
  , (KEY_SPAWN_CHANCE, .key)
  , (2/10, .star) ]

/-- The terrain spawn table, weights in declared order. -/
def terrainTable : List (ℚ × TerrainTag) :=
  [ (7/100, .waterHole)
  , (9/100, .lowBarrier)
  , (7/100, .highBarrier)
  , (7/100, .obstacle)
  , (13/100, .platform1)
  , (13/100, .platform2)
  , (11/100, .platform3)
  , (18/100, .floatingPlatform)
  , (5/100, .ramp)
  , (4/100, .bridge)
  , (3/100, .logPile) ]

/-- The weighted selection walk: accumulate weights in order and return the
first entry whose running sum reaches the drawn value. -/
def selectFromTableAux {α : Type} (random : ℚ) :
    List (ℚ × α) → ℚ → Option (ℚ × α)
  | [], _ => none
  | entry :: rest, currentWeight =>
    let cw := currentWeight + entry.1
    if random ≤ cw then some entry else selectFromTableAux random rest cw

/-- Weighted random selection over a table for one drawn value. -/
def selectFromTable {α : Type} (table : List (ℚ × α)) (random : ℚ) :
    Option (ℚ × α) :=
  selectFromTableAux random table 0

/-- The random draws consumed by the generator of a selected entry. -/
structure GenRands where
  g1 : ℚ
  g2 : ℚ
  g3 : ℚ
  deriving DecidableEq, Repr

/-- Run the generator of a collectible-table entry (offsets as in the
table's generator column). -/
def runCollectibleGenerator (t : CollectibleTag) (spawnX : ℚ) (g : GenRands) :
    Entity :=
  match t with
  | .fruit => CollectibleObjects.generateFruit spawnX g.g1 g.g2
  | .mushroom => CollectibleObjects.generateMushroom (spawnX + 25) g.g1
  | .key => CollectibleObjects.generateKey (spawnX + 50) g.g1
  | .star => CollectibleObjects.generateStar spawnX g.g1

/-- Run the generator of a terrain-table entry (offsets as in the table's
generator column). -/
def runTerrainGenerator (t : TerrainTag) (spawnX : ℚ) (g : GenRands) :
    Entity :=
  match t with
  | .waterHole => ObstacleObjects.generateWaterHole (spawnX + 100) g.g1
  | .lowBarrier => ObstacleObjects.generateLowBarrier (spawnX + 100) g.g1 g.g2
  | .highBarrier => ObstacleObjects.generateHighBarrier (spawnX + 100) g.g1 g.g2
  | .obstacle => ObstacleObjects.generateObstacle (spawnX + 100) g.g1 g.g2
  | .platform1 => TerrainObjects.generatePlatform (spawnX + 100) 1 g.g1
  | .platform2 => TerrainObjects.generatePlatform (spawnX + 100) 2 g.g1
  | .platform3 => TerrainObjects.generatePlatform (spawnX + 100) 3 g.g1
  | .floatingPlatform =>
      TerrainObjects.generateFloatingPlatform (spawnX + 100) g.g1 g.g2 g.g3
  | .ramp => TerrainObjects.generateRamp spawnX g.g1 g.g2
  | .bridge => TerrainObjects.generateBridge spawnX g.g1 g.g2
  | .logPile => TerrainObjects.generateLogPile spawnX g.g1 g.g2

/-- The random draws one `ObjectSpawner.generateObjects` invocation
consumes. -/
structure SpawnerRands where
  collectibleDraw : ℚ
  collectibleGen : GenRands
  terrainGate : ℚ
  terrainDraw : ℚ
  terrainGen : GenRands
  deriving DecidableEq, Repr

namespace ObjectSpawner

/-- One spawner invocation: one collectible-table draw, then with a fixed
75% gate one terrain-table draw; the selected generators' outputs are
appended in that order. -/
def generateObjects (spawnX : ℚ) (r : SpawnerRands) : List Entity :=
  let collectPart :=
    match selectFromTable collectibleTable r.collectibleDraw with
    | some entry => [runCollectibleGenerator entry.2 spawnX r.collectibleGen]
    | none => []
  let terrainPart :=
    if r.terrainGate < 3/4 then
      match selectFromTable terrainTable r.terrainDraw with
      | some entry => [runTerrainGenerator entry.2 spawnX r.terrainGen]
      | none => []
    else []
  collectPart ++ terrainPart

end ObjectSpawner

/-! ## Reference definitions written from the specification's words, for
comparison with the source-derived definitions. -/

/-- The speed update exactly as the specification's reference definition
words it: on positive boost, decay the boost by the fixed step and set
speed to (baseSpeed + speedBoost*0.8) * speedFactor; on negative boost,
recover the boost toward zero by a fixed smaller step and set speed to
max(baseSpeed*0.6, (baseSpeed + speedBoost) * speedFactor); at zero boost
the natural-decay rule of the source is kept (the claim does not mention
it). -/
def specSpeedUpdateC3 (speedBoost baseSpeed speed speedFactor : ℚ) : ℚ × ℚ :=
  if speedBoost > 0 then
    let b := speedBoost - 2/100
    (b, (baseSpeed + b * (8/10)) * speedFactor)
  else if speedBoost < 0 then
    let b := min 0 (speedBoost + 1/100)
    (b, max (baseSpeed * (6/10)) ((baseSpeed + b) * speedFactor))
  else
    let sp := max 2 (speed - 5/1000)
    (speedBoost, if sp ≤ baseSpeed then baseSpeed * speedFactor else sp)

/-- The speed update as amended from the source: a positive boost decays by
0.02 and speed = (baseSpeed + newBoost) * speedFactor with no 0.8 damping;
any non-positive boost (negative included) is left unchanged while the
speed follows natural decay with floor 2, snapped to
baseSpeed * speedFactor once at or below baseSpeed. -/
def amendedSpeedUpdateC3 (speedBoost baseSpeed speed speedFactor : ℚ) : ℚ × ℚ :=
  if speedBoost > 0 then
    (speedBoost - 2/100, (baseSpeed + (speedBoost - 2/100)) * speedFactor)
  else
    (speedBoost,
      if max 2 (speed - 5/1000) ≤ baseSpeed then baseSpeed * speedFactor
      else max 2 (speed - 5/1000))

/-! ## Trace machinery for the temporal claims -/

/-- No uncollected entity of a game-ending kind overlaps the horse in the
given state (the water machinery itself is exempt: water holes never end
the game directly). -/
def noLethal (m : GameState) : Prop :=
  ∀ e ∈ m.gameObjects, e.collected = false → checkCollision m.horse e = true →
    e.type ≠ EntityType.obstacle ∧ e.type ≠ EntityType.highBarrier ∧
    (e.type = EntityType.lowBarrier → m.horse.isDucking = true)

instance (m : GameState) : Decidable (noLethal m) := by
  unfold noLethal
  exact List.decidableBAll _ m.gameObjects

/-- Iterated frames from a start state under a stream of spawn draws. -/
def frameTrace (rs : ℕ → SpawnRands) (s0 : GameState) : ℕ → GameState
  | 0 => s0
  | k + 1 => gameLoopStep (frameTrace rs s0 k) (rs k)

/-! ## Concrete instances used by counterexamples and witnesses -/

/-- Collectible type predicate (fruit, mushroom, key, star). -/
def isCollectibleType (e : Entity) : Bool :=
  match e.type with
  | .fruit => true
  | .mushroom => true
  | .key => true
  | .star => true
  | _ => false

/-- Running weight sum of the first `i + 1` table entries. -/
def cumWeight {α : Type} (table : List (ℚ × α)) (i : ℕ) : ℚ :=
  ((table.take (i + 1)).map Prod.fst).sum

/-- A ramp-check instantiation reporting no ramp contact. -/
def rampCheckNone : Horse → Entity → RampResult := fun _ _ => ⟨false, none⟩

/-- A horse standing on the ground. -/
def hStand : Horse :=
  { x := 100, y := 270, velocityY := 0, isDucking := false, isJumping := false
    currentPlatformLevel := 0, isBlocked := false, isDrowning := false
    drowningTimer := 0 }

/-- A horse still ascending mid-jump. -/
def hAscend : Horse := { hStand with y := 240, velocityY := -10, isJumping := true }

/-- A level-1 platform right under the standing horse. -/
def pLevel1 : Entity :=
  { x := 100, y := 300, width := 100, height := 40, type := .platform
    platformLevel := some 1, isRideable := true }

/-- A rideable floating platform overlapping the horse. -/
def c1entity : Entity :=
  { x := 100, y := 280, width := 100, height := 25, type := .floatingPlatform
    platformLevel := some 1, isRideable := true }

/-- Spawn draws whose gates all fail: the spawn pass adds nothing. -/
def noSpawn : SpawnRands :=
  { fruitGate := 1, fruitBand := 0, fruitOff := 0, mushGate := 1, mushBand := 0
    mushOff := 0, keyGate := 1, keyOff := 0, terrainGate := 1, terrainKind := 0
    terrainWidth := 0, floatHeight := 0, floatLevel := 0, starGate := 1 }

/-- Running game state with the standing horse and the floating platform. -/
def c1state : GameState :=
  { horse := hStand, gameObjects := [c1entity], speed := 4, baseSpeed := 4
    speedBoost := 0, speedFactor := 1, score := 0, distance := 0, keys := 0
    gameRunning := true, gameStarted := true, gamePaused := false }

/-- Running game state with the horse blocked mid-drowning and a positive
boost. -/
def c4state : GameState :=
  { horse :=
      { hStand with isDrowning := true, isBlocked := true, drowningTimer := 300 }
    gameObjects := [], speed := 4, baseSpeed := 4, speedBoost := 1
    speedFactor := 1, score := 0, distance := 0, keys := 0
    gameRunning := true, gameStarted := true, gamePaused := false }

/-- Running game state one frame after first water contact. -/
def c7state : GameState :=
  { horse := { hStand with isDrowning := true, drowningTimer := 0 }
    gameObjects := [], speed := 4, baseSpeed := 4, speedBoost := 0
    speedFactor := 1, score := 0, distance := 0, keys := 0
    gameRunning := true, gameStarted := true, gamePaused := false }

/-- A started, running, paused game state with the horse ducking. -/
def c6paused : GameState :=
  { horse := { hStand with isDucking := true }
    gameObjects := [], speed := 4, baseSpeed := 4, speedBoost := 0
    speedFactor := 1, score := 0, distance := 0, keys := 0
    gameRunning := true, gameStarted := true, gamePaused := true }

/-- A rideable floating platform whose top is at the standing horse's
bottom edge. -/
def pFloatW : Entity :=
  { x := 100, y := 300, width := 100, height := 25, type := .floatingPlatform
    platformLevel := some 2, isRideable := true }

/-- An obstacle overlapping the standing horse. -/
def o10 : Entity :=
  { x := 110, y := 260, width := 20, height := 40, type := .obstacle }

/-- A fruit overlapping the standing horse. -/
def f10 : Entity :=
  { x := 120, y := 275, width := 15, height := 15, type := .fruit }

/-- Base state for the death-frame dispatch scenario. -/
def s10 : GameState :=
  { horse := hStand, gameObjects := [], speed := 4, baseSpeed := 4
    speedBoost := 0, speedFactor := 1, score := 0, distance := 0, keys := 0
    gameRunning := true, gameStarted := true, gamePaused := false }

/-! ## Theorems -/

/-- C9: `checkPlatformLanding` returns true iff the horizontal ranges
overlap, the horse's bottom edge (duck height when ducking) lies within the
band from 15 units above the platform's top to 5 units below it, and the
vertical velocity is nonnegative; in particular a horse with negative
vertical velocity (still ascending) never registers a landing. -/
theorem c9_platform_landing_iff (h : Horse) (p : Entity) :
    (checkPlatformLanding h p = true ↔
      (h.x < p.x + p.width ∧ h.x + HORSE_WIDTH > p.x ∧
       h.y + horseHeightOf h ≥ p.y - 15 ∧ h.y + horseHeightOf h ≤ p.y + 5 ∧
       h.velocityY ≥ 0)) ∧
    (h.velocityY < 0 → checkPlatformLanding h p = false) := by
  have key : checkPlatformLanding h p = true ↔
      (h.x < p.x + p.width ∧ h.x + HORSE_WIDTH > p.x ∧
       h.y + horseHeightOf h ≥ p.y - 15 ∧ h.y + horseHeightOf h ≤ p.y + 5 ∧
       h.velocityY ≥ 0) := by
    unfold checkPlatformLanding LANDING_THRESHOLD
    simp only [Bool.and_eq_true, decide_eq_true_eq]
    tauto
  refine ⟨key, fun hneg => ?_⟩
  cases hb : checkPlatformLanding h p with
  | false => rfl
  | true => exact absurd (key.mp hb).2.2.2.2 (not_le.mpr hneg)

/-- C9 witness: a concrete ascending horse over the level-1 platform does
not land. -/
theorem c9_platform_landing_iff_witness :
    hAscend.velocityY < 0 ∧ checkPlatformLanding hAscend pLevel1 = false :=
  ⟨by norm_num [hAscend, hStand],
   (c9_platform_landing_iff hAscend pLevel1).2 (by norm_num [hAscend, hStand])⟩

/-- C3 counterexample: at boost 1, base speed 4, speed 5, factor 1 the
source's speed update yields (0.98, 4.98) while the specification's
reference definition yields (0.98, 4.784): the source applies no 0.8
damping to the boost term. -/
theorem c3_speed_update_counterexample :
    speedUpdate 1 4 5 1 ≠ specSpeedUpdateC3 1 4 5 1 := by
  norm_num [speedUpdate, specSpeedUpdateC3, Prod.ext_iff]

/-- C3 amended: the per-frame speed update equals the amended reference
definition (positive boost: decrement by 0.02 and
speed = (baseSpeed + newBoost) * speedFactor with no 0.8 damping;
non-positive boost, negative included: boost unchanged, natural decay with
floor 2 and snap to baseSpeed * speedFactor at or below baseSpeed), and the
frame pipeline's resulting boost and speed are exactly this update applied
to the pre-frame boost, base speed, post-wall-penalty speed and the frame's
speed factor. -/
theorem c3_speed_update_amended :
    (∀ b base sp f : ℚ, speedUpdate b base sp f = amendedSpeedUpdateC3 b base sp f) ∧
    (∀ (prev : GameState) (r : SpawnRands),
      ((preCollisionState prev r).speedBoost, (preCollisionState prev r).speed) =
        speedUpdate prev.speedBoost prev.baseSpeed
          (platformPass prev.horse.isBlocked prev.gameObjects
            (gravityStage prev.horse) prev.speed).speed
          (frameSpeedFactor prev.distance)) := by
  constructor
  · intro b base sp f
    unfold speedUpdate amendedSpeedUpdateC3
    split <;> rfl
  · intro prev r
    rfl

/-- C4 counterexample: a frame executed with the horse blocked throughout
(drowning past the block delay) still decays the boost and changes the
speed. -/
theorem c4_blocked_decay_counterexample :
    (gameLoopStep c4state noSpawn).horse.isBlocked = true ∧
    (gameLoopStep c4state noSpawn).speedBoost ≠ c4state.speedBoost ∧
    (gameLoopStep c4state noSpawn).speed ≠ c4state.speed := by
  norm_num [gameLoopStep, preCollisionState, gravityStage, platformPass,
    clearBlockStage, drowningStage, groundStage, frameSpeedFactor, speedUpdate,
    spawnNewObjects, rightmostX, collisionPass, collisionFoldAux, collisionStep,
    c4state, noSpawn, hStand, GAME_WIDTH, GRAVITY, DROWNING_BLOCK_DELAY,
    DROWNING_ANIMATION_DURATION, GROUND_Y, HORSE_HEIGHT, MAX_SPEED_FACTOR,
    SPEED_FACTOR_INCREASE_RATE, MIN_OBSTACLE_SPACING, MAX_OBSTACLE_SPACING,
    MUSHROOM_SPAWN_CHANCE, KEY_SPAWN_CHANCE, min_def, max_def]

/-- C4 amended: the speed/boost decay step is not gated on the blocked
flag: in every frame pipeline a positive boost decays by 0.02 and a
non-positive boost is unchanged, with no dependence on the blocked state. -/
theorem c4_decay_runs_while_blocked (prev : GameState) (r : SpawnRands) :
    (prev.speedBoost > 0 →
      (preCollisionState prev r).speedBoost = prev.speedBoost - 2/100) ∧
    (prev.speedBoost ≤ 0 →
      (preCollisionState prev r).speedBoost = prev.speedBoost) := by
  constructor
  · intro hb
    show (speedUpdate prev.speedBoost prev.baseSpeed _ _).1 = _
    unfold speedUpdate
    rw [if_pos hb]
  · intro hb
    show (speedUpdate prev.speedBoost prev.baseSpeed _ _).1 = _
    unfold speedUpdate
    rw [if_neg (not_lt.mpr hb)]

/-- C4 witness: the blocked drowning state with boost 1 still decays. -/
theorem c4_decay_runs_while_blocked_witness :
    c4state.speedBoost > 0 ∧
    (preCollisionState c4state noSpawn).speedBoost = c4state.speedBoost - 2/100 :=
  ⟨by norm_num [c4state],
   (c4_decay_runs_while_blocked c4state noSpawn).1 (by norm_num [c4state])⟩

/-- C1: evaluation at the failing input: a rideable floating platform
overlapping the horse is marked collected by the frame's collision pass
(the pass exempts only `platform` and `waterHole`), contradicting the
claim that floating platforms are never marked collected. -/
theorem c1_floating_platform_collected :
    c1entity.type = EntityType.floatingPlatform ∧ c1entity.collected = false ∧
    (gameLoopStep c1state noSpawn).gameObjects.map (fun e => (e.type, e.collected)) =
      [(EntityType.floatingPlatform, true)] := by
  refine ⟨rfl, rfl, ?_⟩
  norm_num [gameLoopStep, preCollisionState, gravityStage, platformPass,
    platformStep, clearBlockStage, drowningStage, groundStage, frameSpeedFactor,
    speedUpdate, spawnNewObjects, rightmostX, collisionPass, collisionFoldAux,
    collisionStep, checkCollision, checkPlatformLanding,
    checkPlatformWallCollision, horseHeightOf, handleCollisionEffects, c1state,
    c1entity, noSpawn, hStand, GAME_WIDTH, GRAVITY, DROWNING_BLOCK_DELAY,
    DROWNING_ANIMATION_DURATION, GROUND_Y, HORSE_HEIGHT, DUCK_HEIGHT,
    HORSE_WIDTH, LANDING_THRESHOLD, MAX_SPEED_FACTOR,
    SPEED_FACTOR_INCREASE_RATE, MIN_OBSTACLE_SPACING, MAX_OBSTACLE_SPACING,
    MUSHROOM_SPAWN_CHANCE, KEY_SPAWN_CHANCE, min_def, max_def]
  simp

/-- C5 counterexample: the collectible table's weights sum to 1.13, which
is not at most 1 as the claim states. -/
theorem c5_weight_sum_counterexample :
    (collectibleTable.map Prod.fst).sum = 113/100 ∧
    ¬ (collectibleTable.map Prod.fst).sum ≤ 1 := by
  norm_num [collectibleTable, MUSHROOM_SPAWN_CHANCE, KEY_SPAWN_CHANCE]

/-- C6 counterexample: in a started, running, paused state the pause toggle
is not a no-op: it unpauses. -/
theorem c6_toggle_pause_counterexample :
    c6paused.gamePaused = true ∧ togglePause c6paused ≠ c6paused := by
  refine ⟨rfl, fun h => ?_⟩
  have h2 := congrArg GameState.gamePaused h
  simp [togglePause, c6paused] at h2

/-- C6 amended: jump and startDuck are no-ops unless started, running and
unpaused; togglePause requires only started and running and toggles the
pause flag (also while paused); stopDuck unconditionally clears the duck
flag; a gated jump succeeds exactly when the horse's y is at or below 5
units above the standing surface for its platform level (no upper bound),
setting velocityY to the jump force, the jumping flag, and clearing the
duck flag. -/
theorem c6_input_gating_amended (s : GameState) :
    (¬ (s.gameStarted = true ∧ s.gameRunning = true ∧ s.gamePaused = false) →
      jump s = s ∧ startDuck s = s) ∧
    (¬ (s.gameStarted = true ∧ s.gameRunning = true) → togglePause s = s) ∧
    (s.gameStarted = true → s.gameRunning = true →
      (togglePause s).gamePaused = !s.gamePaused) ∧
    stopDuck s = { s with horse := { s.horse with isDucking := false } } ∧
    (s.gameStarted = true → s.gameRunning = true → s.gamePaused = false →
      (s.horse.y ≥ expectedYForLevel s.horse.currentPlatformLevel - 5 →
        jump s = { s with horse := { s.horse with
          velocityY := JUMP_FORCE, isJumping := true, isDucking := false } }) ∧
      (s.horse.y < expectedYForLevel s.horse.currentPlatformLevel - 5 →
        jump s = s)) := by
  refine ⟨?_, ?_, ?_, rfl, ?_⟩
  · intro hnp
    unfold jump startDuck
    rw [if_neg hnp, if_neg hnp]
    exact ⟨rfl, rfl⟩
  · intro hnp
    unfold togglePause
    rw [if_neg hnp]
  · intro h1 h2
    unfold togglePause
    rw [if_pos ⟨h1, h2⟩]
  · intro h1 h2 h3
    constructor
    · intro hy
      unfold jump
      rw [if_pos ⟨h1, h2, h3⟩, if_pos hy]
    · intro hy
      unfold jump
      rw [if_pos ⟨h1, h2, h3⟩, if_neg (not_le.mpr hy)]

/-- C6 witness: in the paused state, jump is a no-op and the pause toggle
flips the flag. -/
theorem c6_input_gating_amended_witness :
    jump c6paused = c6paused ∧
    (togglePause c6paused).gamePaused = !c6paused.gamePaused :=
  ⟨((c6_input_gating_amended c6paused).1 (by decide)).1,
   (c6_input_gating_amended c6paused).2.2.1 (by decide) (by decide)⟩

/-- C10: the update function returns a non-running state unchanged (next
frame onward), while within a single frame's collision pass the dispatch
continues past a game-ending effect: with an overlapping obstacle followed
by an overlapping fruit, the pass both ends the game and still adds the
fruit's 10 points. -/
theorem c10_dispatch_continues_in_death_frame :
    (∀ (s : GameState) (r : SpawnRands), s.gameRunning = false →
      gameLoopStep s r = s) ∧
    (∀ (s : GameState) (o f : Entity),
      o.collected = false → f.collected = false →
      o.type = EntityType.obstacle → f.type = EntityType.fruit →
      checkCollision s.horse o = true → checkCollision s.horse f = true →
      (collisionPass { s with gameObjects := [o, f] }).gameRunning = false ∧
      (collisionPass { s with gameObjects := [o, f] }).score = s.score + 10) := by
  constructor
  · intro s r h
    unfold gameLoopStep
    rw [if_pos (Or.inr (Or.inl h))]
  · intro s o f hoc hfc hot hft hco hcf
    simp [collisionPass, collisionFoldAux, collisionStep, hoc, hco, hot, hft,
      hfc, hcf, handleCollisionEffects]

/-- C10 witness: the concrete death-frame scenario and the next-frame
no-op. -/
theorem c10_dispatch_continues_witness :
    (collisionPass { s10 with gameObjects := [o10, f10] }).gameRunning = false ∧
    (collisionPass { s10 with gameObjects := [o10, f10] }).score = s10.score + 10 :=
  c10_dispatch_continues_in_death_frame.2 s10 o10 f10 rfl rfl rfl rfl
    (by norm_num [checkCollision, s10, o10, hStand, horseHeightOf, HORSE_WIDTH,
      HORSE_HEIGHT, DUCK_HEIGHT])
    (by norm_num [checkCollision, s10, f10, hStand, horseHeightOf, HORSE_WIDTH,
      HORSE_HEIGHT, DUCK_HEIGHT])

/-- C2: the refactored physics resolver tests `checkPlatformLanding` for
every rideable entity of the platform-like types — floating platforms
explicitly included — and on success snaps y to the platform top minus the
horse's current height (duck height if ducking), zeroes velocityY, clears
the jumping flag and sets the platform level to the entity's tier; this is
stated for any ramp-landing helper.  The remaining conjuncts show that in
the current revision these types are exactly the rideable entities: the
terrain generator marks only platforms and floating platforms rideable, no
collectible generator and no initial object is rideable. -/
theorem c2_rideable_platform_landing :
    (∀ (rampCheck : Horse → Entity → RampResult) (h : Horse) (obj : Entity)
        (sp : ℚ), obj.isRideable = true →
      (obj.type = EntityType.platform ∨ obj.type = EntityType.floatingPlatform ∨
       obj.type = EntityType.bridge) →
      checkPlatformLanding h obj = true →
      ((updateHorsePhysics rampCheck h [obj] sp).y = obj.y - horseHeightOf h ∧
       (updateHorsePhysics rampCheck h [obj] sp).velocityY = 0 ∧
       (updateHorsePhysics rampCheck h [obj] sp).isJumping = false ∧
       (updateHorsePhysics rampCheck h [obj] sp).currentPlatformLevel =
         obj.platformLevel.getD 0 ∧
       (updateHorsePhysics rampCheck h [obj] sp).landedOnPlatform = true)) ∧
    (∀ spawnX rT rW rH rL : ℚ,
      (glGenerateTerrain spawnX rT rW rH rL).isRideable = true →
      (glGenerateTerrain spawnX rT rW rH rL).type = EntityType.platform ∨
      (glGenerateTerrain spawnX rT rW rH rL).type = EntityType.floatingPlatform) ∧
    (∀ spawnX r1 r2 : ℚ,
      (generateFruit spawnX r1 r2).isRideable = false ∧
      (generateMushroom spawnX r1 r2).isRideable = false ∧
      (generateKey spawnX r1).isRideable = false ∧
      (generateStar spawnX).isRideable = false) ∧
    (∀ e ∈ createInitialObjects, e.isRideable = false) := by
  refine ⟨?_, ?_, fun _ _ _ => ⟨rfl, rfl, rfl, rfl⟩, ?_⟩
  · intro rampCheck h obj sp hrid hty hland
    rcases hty with h1 | h1 | h1 <;>
      (simp only [updateHorsePhysics, updateHorsePhysicsObj, h1,
        List.foldl_cons, List.foldl_nil]
       simp [hland, hrid]
       split <;> simp)
  · intro spawnX rT rW rH rL hrid
    unfold glGenerateTerrain glGenerateFloatingPlatform at hrid ⊢
    repeat' split <;> simp_all
  · simp [createInitialObjects]

/-- C2 witness: a concrete rideable floating platform with a successful
landing test gets the full landing resolution. -/
theorem c2_rideable_platform_landing_witness :
    checkPlatformLanding hStand pFloatW = true ∧
    (updateHorsePhysics rampCheckNone hStand [pFloatW] 4).y =
      pFloatW.y - horseHeightOf hStand ∧
    (updateHorsePhysics rampCheckNone hStand [pFloatW] 4).velocityY = 0 ∧
    (updateHorsePhysics rampCheckNone hStand [pFloatW] 4).currentPlatformLevel = 2 := by
  have hland : checkPlatformLanding hStand pFloatW = true := by
    norm_num [checkPlatformLanding, hStand, pFloatW, horseHeightOf, HORSE_WIDTH,
      HORSE_HEIGHT, DUCK_HEIGHT, LANDING_THRESHOLD]
  have hmain := c2_rideable_platform_landing.1 rampCheckNone hStand pFloatW 4
    rfl (Or.inr (Or.inl rfl)) hland
  exact ⟨hland, hmain.1, hmain.2.1, hmain.2.2.2.1.trans rfl⟩

/-- Running weight sum of the first entry of a cons cell. -/
theorem cumWeight_cons_zero {α : Type} (e : ℚ × α) (rest : List (ℚ × α)) :
    cumWeight (e :: rest) 0 = e.1 := by
  simp [cumWeight]

/-- Running weight sums shift by the head weight. -/
theorem cumWeight_cons_succ {α : Type} (e : ℚ × α) (rest : List (ℚ × α)) (j : ℕ) :
    cumWeight (e :: rest) (j + 1) = e.1 + cumWeight rest j := by
  simp [cumWeight]

/-- The weighted-selection walk returns the first entry whose running sum
reaches the drawn value. -/
theorem selectAux_some {α : Type} :
    ∀ (table : List (ℚ × α)) (random cw : ℚ) (i : ℕ) (hi : i < table.length),
      random ≤ cw + cumWeight table i →
      (∀ j < i, cw + cumWeight table j < random) →
      selectFromTableAux random table cw = some (table.get ⟨i, hi⟩)
  | [], _, _, i, hi, _, _ => absurd hi (by simp)
  | e :: rest, random, cw, 0, hi, hle, _ => by
      rw [cumWeight_cons_zero] at hle
      unfold selectFromTableAux
      rw [if_pos hle]
      rfl
  | e :: rest, random, cw, i + 1, hi, hle, hlt => by
      have h0 : cw + e.1 < random := by
        have := hlt 0 (Nat.succ_pos i)
        rwa [cumWeight_cons_zero] at this
      unfold selectFromTableAux
      rw [if_neg (not_le.mpr h0)]
      have hi' : i < rest.length := by simpa using hi
      have hle' : random ≤ (cw + e.1) + cumWeight rest i := by
        rw [cumWeight_cons_succ] at hle
        linarith
      have hlt' : ∀ j < i, (cw + e.1) + cumWeight rest j < random := by
        intro j hj
        have := hlt (j + 1) (Nat.succ_lt_succ hj)
        rw [cumWeight_cons_succ] at this
        linarith
      exact selectAux_some rest random (cw + e.1) i hi' hle' hlt'

/-- The weighted-selection walk returns nothing exactly when no running sum
reaches the drawn value. -/
theorem selectAux_none_iff {α : Type} :
    ∀ (table : List (ℚ × α)) (random cw : ℚ),
      (selectFromTableAux random table cw = none ↔
        ∀ j < table.length, cw + cumWeight table j < random)
  | [], random, cw => by simp [selectFromTableAux]
  | e :: rest, random, cw => by
      unfold selectFromTableAux
      by_cases hc : random ≤ cw + e.1
      · rw [if_pos hc]
        simp only [reduceCtorEq, false_iff]
        intro hall
        have := hall 0 (Nat.succ_pos _)
        rw [cumWeight_cons_zero] at this
        linarith
      · rw [if_neg hc]
        rw [selectAux_none_iff rest random (cw + e.1)]
        constructor
        · intro hall j hj
          cases j with
          | zero =>
            rw [cumWeight_cons_zero]
            exact not_le.mp hc
          | succ j =>
            have := hall j (by simpa using hj)
            rw [cumWeight_cons_succ]
            linarith
        · intro hall j hj
          have := hall (j + 1) (by simpa using hj)
          rw [cumWeight_cons_succ] at this
          linarith

/-- Terrain-table generators never produce a collectible-typed entity. -/
theorem terrain_gen_not_collectible (t : TerrainTag) (x : ℚ) (g : GenRands) :
    isCollectibleType (runTerrainGenerator t x g) = false := by
  cases t <;> rfl

/-- C5 amended: each spawner invocation produces at most one collectible
entity via the collectible table; the selection iterates the table in
declared order and returns the first entry whose running weight sum reaches
the single drawn value; a draw that no running sum reaches (in particular
one exceeding the total weight) selects nothing, which is not an error —
but the collectible table's weights sum to 1.13, not at most 1, so for
draws in the unit interval the no-collectible branch is unreachable. -/
theorem c5_weighted_selection_amended :
    (∀ (spawnX : ℚ) (r : SpawnerRands),
      ((ObjectSpawner.generateObjects spawnX r).countP
        (fun e => isCollectibleType e)) ≤ 1) ∧
    (∀ (α : Type) (table : List (ℚ × α)) (random : ℚ) (i : ℕ)
        (hi : i < table.length),
      random ≤ cumWeight table i → (∀ j < i, cumWeight table j < random) →
      selectFromTable table random = some (table.get ⟨i, hi⟩)) ∧
    (∀ (α : Type) (table : List (ℚ × α)) (random : ℚ),
      selectFromTable table random = none ↔
        ∀ j < table.length, cumWeight table j < random) := by
  refine ⟨?_, ?_, ?_⟩
  · intro spawnX r
    unfold ObjectSpawner.generateObjects
    have hterrain : (if r.terrainGate < 3/4 then
        match selectFromTable terrainTable r.terrainDraw with
        | some entry => [runTerrainGenerator entry.2 spawnX r.terrainGen]
        | none => []
      else []).countP (fun e => isCollectibleType e) = 0 := by
      split
      · rcases selectFromTable terrainTable r.terrainDraw with _ | e2 <;>
          simp [List.countP_cons, terrain_gen_not_collectible]
      · rfl
    rcases hsel : selectFromTable collectibleTable r.collectibleDraw with _ | entry
    · simp [List.countP_append, hterrain]
    · simp only [List.countP_append, hterrain, List.countP_cons, List.countP_nil]
      split <;> omega
  · intro α table random i hi h1 h2
    have := selectAux_some table random 0 i hi (by simpa using h1)
      (fun j hj => by simpa using h2 j hj)
    simpa [selectFromTable] using this
  · intro α table random
    have := selectAux_none_iff table random 0
    simpa [selectFromTable] using this

/-- C5 witness: a draw of one half selects the first (fruit) entry of the
collectible table. -/
theorem c5_weighted_selection_amended_witness :
    selectFromTable collectibleTable (1/2) =
      some (collectibleTable.get ⟨0, by norm_num [collectibleTable]⟩) :=
  c5_weighted_selection_amended.2.1 CollectibleTag collectibleTable (1/2) 0
    (by norm_num [collectibleTable])
    (by norm_num [cumWeight, collectibleTable])
    (fun j hj => absurd hj (Nat.not_lt_zero j))


theorem platformStep_horse_pres (pb : Bool) (acc : PhysicsAcc) (obj : Entity) :
    (platformStep pb acc obj).horse.isDrowning = acc.horse.isDrowning ∧
    (platformStep pb acc obj).horse.drowningTimer = acc.horse.drowningTimer ∧
    (platformStep pb acc obj).horse.isDucking = acc.horse.isDucking := by
  refine ⟨?_, ?_, ?_⟩ <;> simp only [platformStep] <;> (repeat' split) <;> rfl

theorem foldl_platformStep_pres :
    ∀ (objs : List Entity) (pb : Bool) (acc : PhysicsAcc),
      (objs.foldl (platformStep pb) acc).horse.isDrowning = acc.horse.isDrowning ∧
      (objs.foldl (platformStep pb) acc).horse.drowningTimer = acc.horse.drowningTimer ∧
      (objs.foldl (platformStep pb) acc).horse.isDucking = acc.horse.isDucking
  | [], pb, acc => ⟨rfl, rfl, rfl⟩
  | e :: rest, pb, acc => by
      simp only [List.foldl_cons]
      have h1 := platformStep_horse_pres pb acc e
      have h2 := foldl_platformStep_pres rest pb (platformStep pb acc e)
      exact ⟨h2.1.trans h1.1, h2.2.1.trans h1.2.1, h2.2.2.trans h1.2.2⟩

theorem platformPass_horse_pres (pb : Bool) (objs : List Entity) (h : Horse) (sp : ℚ) :
    (platformPass pb objs h sp).horse.isDrowning = h.isDrowning ∧
    (platformPass pb objs h sp).horse.drowningTimer = h.drowningTimer ∧
    (platformPass pb objs h sp).horse.isDucking = h.isDucking :=
  foldl_platformStep_pres objs pb _

theorem handleCollisionEffects_pres (s : GameState) (obj : Entity) :
    (handleCollisionEffects s obj).gameStarted = s.gameStarted ∧
    (handleCollisionEffects s obj).gamePaused = s.gamePaused ∧
    (handleCollisionEffects s obj).distance = s.distance ∧
    (handleCollisionEffects s obj).speed = s.speed ∧
    (handleCollisionEffects s obj).horse.isBlocked = s.horse.isBlocked := by
  unfold handleCollisionEffects
  cases htype : obj.type <;> simp [htype] <;> split <;> simp

theorem handleCollisionEffects_horse_of_drowning (s : GameState) (obj : Entity)
    (hd : s.horse.isDrowning = true) :
    (handleCollisionEffects s obj).horse = s.horse := by
  unfold handleCollisionEffects
  cases htype : obj.type <;> simp [htype, hd] <;> split <;> simp

theorem handleCollisionEffects_running_false (s : GameState) (obj : Entity)
    (hr : s.gameRunning = false) :
    (handleCollisionEffects s obj).gameRunning = false := by
  unfold handleCollisionEffects
  cases htype : obj.type <;> simp [htype, hr] <;> split <;> simp [hr]

theorem handleCollisionEffects_running_safe (s : GameState) (obj : Entity)
    (ho : obj.type ≠ EntityType.obstacle) (hh : obj.type ≠ EntityType.highBarrier)
    (hl : obj.type = EntityType.lowBarrier → s.horse.isDucking = true) :
    (handleCollisionEffects s obj).gameRunning = s.gameRunning := by
  unfold handleCollisionEffects
  cases htype : obj.type <;> simp_all <;> split <;> simp_all

theorem collisionStep_state_pres (s : GameState) (obj : Entity) :
    (collisionStep s obj).1.gameStarted = s.gameStarted ∧
    (collisionStep s obj).1.gamePaused = s.gamePaused ∧
    (collisionStep s obj).1.distance = s.distance ∧
    (collisionStep s obj).1.speed = s.speed ∧
    (collisionStep s obj).1.horse.isBlocked = s.horse.isBlocked := by
  unfold collisionStep
  split
  · exact handleCollisionEffects_pres s _
  · exact ⟨rfl, rfl, rfl, rfl, rfl⟩

theorem collisionStep_x (s : GameState) (obj : Entity) :
    (collisionStep s obj).2.x = obj.x := by
  simp only [collisionStep]
  repeat' split
  all_goals rfl

theorem collisionStep_horse_of_drowning (s : GameState) (obj : Entity)
    (hd : s.horse.isDrowning = true) :
    (collisionStep s obj).1.horse = s.horse := by
  unfold collisionStep
  split
  · exact handleCollisionEffects_horse_of_drowning s _ hd
  · rfl

theorem collisionStep_running_false (s : GameState) (obj : Entity)
    (hr : s.gameRunning = false) :
    (collisionStep s obj).1.gameRunning = false := by
  unfold collisionStep
  split
  · exact handleCollisionEffects_running_false s _ hr
  · exact hr

theorem collisionStep_running_safe (s : GameState) (obj : Entity)
    (hsafe : obj.collected = false → checkCollision s.horse obj = true →
      obj.type ≠ EntityType.obstacle ∧ obj.type ≠ EntityType.highBarrier ∧
      (obj.type = EntityType.lowBarrier → s.horse.isDucking = true)) :
    (collisionStep s obj).1.gameRunning = s.gameRunning := by
  unfold collisionStep
  split
  · next hcond =>
    have h := hsafe hcond.1 hcond.2
    apply handleCollisionEffects_running_safe
    · split <;> simpa using h.1
    · split <;> simpa using h.2.1
    · split <;> (intro hty; exact h.2.2 (by simpa using hty))
  · rfl

theorem collisionFoldAux_state_pres :
    ∀ (l : List Entity) (acc : GameState),
      (collisionFoldAux acc l).1.gameStarted = acc.gameStarted ∧
      (collisionFoldAux acc l).1.gamePaused = acc.gamePaused ∧
      (collisionFoldAux acc l).1.distance = acc.distance ∧
      (collisionFoldAux acc l).1.speed = acc.speed ∧
      (collisionFoldAux acc l).1.horse.isBlocked = acc.horse.isBlocked
  | [], acc => ⟨rfl, rfl, rfl, rfl, rfl⟩
  | e :: rest, acc => by
      simp only [collisionFoldAux]
      have h1 := collisionStep_state_pres acc e
      have h2 := collisionFoldAux_state_pres rest (collisionStep acc e).1
      exact ⟨h2.1.trans h1.1, h2.2.1.trans h1.2.1, h2.2.2.1.trans h1.2.2.1,
        h2.2.2.2.1.trans h1.2.2.2.1, h2.2.2.2.2.trans h1.2.2.2.2⟩

theorem collisionFoldAux_xs :
    ∀ (l : List Entity) (acc : GameState),
      ((collisionFoldAux acc l).2).map (fun e => e.x) = l.map (fun e => e.x)
  | [], _ => rfl
  | e :: rest, acc => by
      simp only [collisionFoldAux, List.map_cons]
      exact congrArg₂ _ (collisionStep_x acc e) (collisionFoldAux_xs rest _)

theorem collisionFoldAux_horse_of_drowning :
    ∀ (l : List Entity) (acc : GameState), acc.horse.isDrowning = true →
      (collisionFoldAux acc l).1.horse = acc.horse
  | [], _, _ => rfl
  | e :: rest, acc, hd => by
      simp only [collisionFoldAux]
      have h1 := collisionStep_horse_of_drowning acc e hd
      have h2 := collisionFoldAux_horse_of_drowning rest (collisionStep acc e).1
        (by rw [h1]; exact hd)
      rw [h2, h1]

theorem collisionFoldAux_running_false :
    ∀ (l : List Entity) (acc : GameState), acc.gameRunning = false →
      (collisionFoldAux acc l).1.gameRunning = false
  | [], _, hr => hr
  | e :: rest, acc, hr => by
      simp only [collisionFoldAux]
      exact collisionFoldAux_running_false rest _
        (collisionStep_running_false acc e hr)

theorem collisionFoldAux_running_safe :
    ∀ (l : List Entity) (acc : GameState), acc.horse.isDrowning = true →
      (∀ e ∈ l, e.collected = false → checkCollision acc.horse e = true →
        e.type ≠ EntityType.obstacle ∧ e.type ≠ EntityType.highBarrier ∧
        (e.type = EntityType.lowBarrier → acc.horse.isDucking = true)) →
      (collisionFoldAux acc l).1.gameRunning = acc.gameRunning
  | [], _, _, _ => rfl
  | e :: rest, acc, hd, hsafe => by
      simp only [collisionFoldAux]
      have h1 : (collisionStep acc e).1.horse = acc.horse :=
        collisionStep_horse_of_drowning acc e hd
      have hstep : (collisionStep acc e).1.gameRunning = acc.gameRunning :=
        collisionStep_running_safe acc e (hsafe e (List.mem_cons_self e rest))
      have h2 := collisionFoldAux_running_safe rest (collisionStep acc e).1
        (by rw [h1]; exact hd)
        (by intro e2 he2
            rw [h1]
            exact hsafe e2 (List.mem_cons_of_mem e he2))
      exact h2.trans hstep

theorem collisionPass_state_pres (m : GameState) :
    (collisionPass m).gameStarted = m.gameStarted ∧
    (collisionPass m).gamePaused = m.gamePaused ∧
    (collisionPass m).distance = m.distance ∧
    (collisionPass m).speed = m.speed ∧
    (collisionPass m).horse.isBlocked = m.horse.isBlocked :=
  collisionFoldAux_state_pres m.gameObjects m

theorem collisionPass_xs (m : GameState) :
    (collisionPass m).gameObjects.map (fun e => e.x) =
      m.gameObjects.map (fun e => e.x) :=
  collisionFoldAux_xs m.gameObjects m

theorem collisionPass_horse_of_drowning (m : GameState)
    (hd : m.horse.isDrowning = true) :
    (collisionPass m).horse = m.horse :=
  collisionFoldAux_horse_of_drowning m.gameObjects m hd

theorem collisionPass_running_false (m : GameState) (hr : m.gameRunning = false) :
    (collisionPass m).gameRunning = false :=
  collisionFoldAux_running_false m.gameObjects m hr

theorem collisionPass_running_safe (m : GameState)
    (hd : m.horse.isDrowning = true) (hsafe : noLethal m) :
    (collisionPass m).gameRunning = m.gameRunning :=
  collisionFoldAux_running_safe m.gameObjects m hd hsafe

theorem gravityStage_of_drowning (h : Horse) (hd : h.isDrowning = true) :
    gravityStage h = h := by
  simp [gravityStage, hd]

theorem clearBlockStage_of_drowning (pb hw : Bool) (h : Horse)
    (hd : h.isDrowning = true) :
    clearBlockStage pb hw h = h := by
  simp [clearBlockStage, hd]

theorem groundStage_of_drowning (l : Bool) (h : Horse) (hd : h.isDrowning = true) :
    groundStage l h = h := by
  simp [groundStage, hd]

theorem drowningStage_of_drowning (h : Horse) (running : Bool)
    (hd : h.isDrowning = true) :
    (drowningStage h running).1.isDrowning = true ∧
    (drowningStage h running).1.drowningTimer = h.drowningTimer + 16 ∧
    (drowningStage h running).1.isDucking = h.isDucking ∧
    (drowningStage h running).1.isBlocked =
      (if h.drowningTimer + 16 ≥ DROWNING_BLOCK_DELAY ∧ h.isBlocked = false
       then true else h.isBlocked) ∧
    (drowningStage h running).2 =
      (if h.drowningTimer + 16 ≥ DROWNING_ANIMATION_DURATION then false
       else running) := by
  unfold drowningStage
  rw [if_pos hd]
  exact ⟨hd, rfl, rfl, rfl, rfl⟩

theorem preCollisionState_drowning_facts (s : GameState) (r : SpawnRands)
    (hdr : s.horse.isDrowning = true) :
    (preCollisionState s r).horse.isDrowning = true ∧
    (preCollisionState s r).horse.drowningTimer = s.horse.drowningTimer + 16 ∧
    (preCollisionState s r).horse.isDucking = s.horse.isDucking ∧
    (s.horse.drowningTimer + 16 ≥ DROWNING_BLOCK_DELAY →
      (preCollisionState s r).horse.isBlocked = true) ∧
    (preCollisionState s r).gameRunning =
      (if s.horse.drowningTimer + 16 ≥ DROWNING_ANIMATION_DURATION then false
       else s.gameRunning) ∧
    (preCollisionState s r).gameStarted = s.gameStarted ∧
    (preCollisionState s r).gamePaused = s.gamePaused := by
  have hgrav : gravityStage s.horse = s.horse := gravityStage_of_drowning _ hdr
  set A := platformPass s.horse.isBlocked s.gameObjects (gravityStage s.horse)
    s.speed with hA
  have hacc := platformPass_horse_pres s.horse.isBlocked s.gameObjects
    (gravityStage s.horse) s.speed
  rw [← hA, hgrav] at hacc
  have hAd : A.horse.isDrowning = true := hacc.1.trans hdr
  have hclear : clearBlockStage s.horse.isBlocked A.hitPlatformWall A.horse =
      A.horse := clearBlockStage_of_drowning _ _ _ hAd
  have hdrown := drowningStage_of_drowning A.horse s.gameRunning hAd
  have hground : groundStage A.landedOnPlatform
      (drowningStage A.horse s.gameRunning).1 =
      (drowningStage A.horse s.gameRunning).1 :=
    groundStage_of_drowning _ _ hdrown.1
  have hhorse : (preCollisionState s r).horse =
      groundStage A.landedOnPlatform
        (drowningStage (clearBlockStage s.horse.isBlocked A.hitPlatformWall
          A.horse) s.gameRunning).1 := rfl
  have hrun : (preCollisionState s r).gameRunning =
      (drowningStage (clearBlockStage s.horse.isBlocked A.hitPlatformWall
        A.horse) s.gameRunning).2 := rfl
  rw [hclear] at hhorse hrun
  rw [hground] at hhorse
  refine ⟨?_, ?_, ?_, ?_, ?_, rfl, rfl⟩
  · rw [hhorse]; exact hdrown.1
  · rw [hhorse, hdrown.2.1, hacc.2.1]
  · rw [hhorse, hdrown.2.2.1, hacc.2.2]
  · intro ht
    rw [hhorse, hdrown.2.2.2.1]
    have ht2 : A.horse.drowningTimer + 16 ≥ DROWNING_BLOCK_DELAY := by
      rw [hacc.2.1]; exact ht
    by_cases hb : A.horse.isBlocked = false
    · rw [if_pos ⟨ht2, hb⟩]
    · rw [if_neg (fun hc => hb hc.2)]
      simpa using hb
  · rw [hrun, hdrown.2.2.2.2, hacc.2.1]

theorem gameLoopStep_executed (s : GameState) (r : SpawnRands)
    (hst : s.gameStarted = true) (hrn : s.gameRunning = true)
    (hps : s.gamePaused = false) :
    gameLoopStep s r = collisionPass (preCollisionState s r) := by
  unfold gameLoopStep
  rw [if_neg]
  simp [hst, hrn, hps]

theorem drowning_step_facts (s : GameState) (r : SpawnRands)
    (hst : s.gameStarted = true) (hrn : s.gameRunning = true)
    (hps : s.gamePaused = false) (hdr : s.horse.isDrowning = true)
    (hsafe : noLethal (preCollisionState s r)) :
    (gameLoopStep s r).gameStarted = true ∧
    (gameLoopStep s r).gamePaused = false ∧
    (gameLoopStep s r).horse.isDrowning = true ∧
    (gameLoopStep s r).horse.drowningTimer = s.horse.drowningTimer + 16 ∧
    (s.horse.drowningTimer + 16 ≥ DROWNING_BLOCK_DELAY →
      (gameLoopStep s r).horse.isBlocked = true) ∧
    (s.horse.drowningTimer + 16 < DROWNING_ANIMATION_DURATION →
      (gameLoopStep s r).gameRunning = true) := by
  have hpre := preCollisionState_drowning_facts s r hdr
  have hstep := gameLoopStep_executed s r hst hrn hps
  have hhorse : (collisionPass (preCollisionState s r)).horse =
      (preCollisionState s r).horse :=
    collisionPass_horse_of_drowning _ hpre.1
  have hpres := collisionPass_state_pres (preCollisionState s r)
  refine ⟨?_, ?_, ?_, ?_, ?_, ?_⟩
  · rw [hstep, hpres.1, hpre.2.2.2.2.2.1, hst]
  · rw [hstep, hpres.2.1, hpre.2.2.2.2.2.2, hps]
  · rw [hstep, hhorse]; exact hpre.1
  · rw [hstep, hhorse]; exact hpre.2.1
  · intro ht
    rw [hstep, hhorse]
    exact hpre.2.2.2.1 ht
  · intro ht
    have hrun := collisionPass_running_safe (preCollisionState s r) hpre.1 hsafe
    rw [hstep, hrun, hpre.2.2.2.2.1, if_neg (not_le.mpr ht), hrn]

theorem drowning_step_ends (s : GameState) (r : SpawnRands)
    (hst : s.gameStarted = true) (hrn : s.gameRunning = true)
    (hps : s.gamePaused = false) (hdr : s.horse.isDrowning = true)
    (hend : s.horse.drowningTimer + 16 ≥ DROWNING_ANIMATION_DURATION) :
    (gameLoopStep s r).gameRunning = false := by
  have hpre := preCollisionState_drowning_facts s r hdr
  rw [gameLoopStep_executed s r hst hrn hps]
  apply collisionPass_running_false
  rw [hpre.2.2.2.2.1, if_pos hend]

/-- C7: a waterHole dispatch never clears gameRunning directly: on first
contact it only sets isDrowning with timer 0, and while drowning it is a
no-op.  From the first-contact state, over frames in which no uncollected
lethal entity overlaps the horse, the timer increases by exactly 16 each
frame, the game keeps running through frame 62 (timer 992), the block is
forced on every frame whose timer is at least 200 (first at frame 13,
timer 208), and gameRunning becomes false exactly at frame 63, the first
frame whose timer (1008) reaches the 1000ms drowning duration. -/
theorem c7_drowning_timing (rs : ℕ → SpawnRands) (s0 : GameState)
    (hst : s0.gameStarted = true) (hrn : s0.gameRunning = true)
    (hps : s0.gamePaused = false) (hdr : s0.horse.isDrowning = true)
    (ht : s0.horse.drowningTimer = 0)
    (H : ∀ k < 62, noLethal (preCollisionState (frameTrace rs s0 k) (rs k))) :
    (∀ (s : GameState) (obj : Entity), obj.type = EntityType.waterHole →
      ((handleCollisionEffects s obj).gameRunning = s.gameRunning ∧
       (s.horse.isDrowning = true → handleCollisionEffects s obj = s) ∧
       (s.horse.isDrowning = false →
         (handleCollisionEffects s obj).horse.isDrowning = true ∧
         (handleCollisionEffects s obj).horse.drowningTimer = 0))) ∧
    (∀ k, k ≤ 62 → (frameTrace rs s0 k).gameRunning = true ∧
       (frameTrace rs s0 k).horse.drowningTimer = 16 * (k : ℚ)) ∧
    (∀ k, 13 ≤ k → k ≤ 62 → (frameTrace rs s0 k).horse.isBlocked = true) ∧
    (frameTrace rs s0 63).gameRunning = false := by
  have inv : ∀ k, k ≤ 62 →
      (frameTrace rs s0 k).gameStarted = true ∧
      (frameTrace rs s0 k).gamePaused = false ∧
      (frameTrace rs s0 k).gameRunning = true ∧
      (frameTrace rs s0 k).horse.isDrowning = true ∧
      (frameTrace rs s0 k).horse.drowningTimer = 16 * (k : ℚ) := by
    intro k
    induction k with
    | zero =>
      intro _
      refine ⟨hst, hps, hrn, hdr, ?_⟩
      show s0.horse.drowningTimer = 16 * ((0 : ℕ) : ℚ)
      rw [ht]
      norm_num
    | succ k ihk =>
      intro hk
      have hk62 : k ≤ 62 := Nat.le_of_succ_le hk
      have ih := ihk hk62
      have hklt : k < 62 := Nat.lt_of_succ_le hk
      have hs := drowning_step_facts (frameTrace rs s0 k) (rs k) ih.1 ih.2.2.1
        ih.2.1 ih.2.2.2.1 (H k hklt)
      have hcast : ((k : ℚ)) ≤ 61 := by
        have : k ≤ 61 := by omega
        exact_mod_cast this
      have hrun : (frameTrace rs s0 k).horse.drowningTimer + 16 <
          DROWNING_ANIMATION_DURATION := by
        rw [ih.2.2.2.2]
        unfold DROWNING_ANIMATION_DURATION
        linarith
      refine ⟨hs.1, hs.2.1, hs.2.2.2.2.2 hrun, hs.2.2.1, ?_⟩
      show (gameLoopStep (frameTrace rs s0 k) (rs k)).horse.drowningTimer =
        16 * ((k + 1 : ℕ) : ℚ)
      rw [hs.2.2.2.1, ih.2.2.2.2]
      push_cast
      ring
  refine ⟨?_, fun k hk => ⟨(inv k hk).2.2.1, (inv k hk).2.2.2.2⟩, ?_, ?_⟩
  · intro s obj hw
    unfold handleCollisionEffects
    refine ⟨?_, ?_, ?_⟩
    · simp only [hw]
      split <;> rfl
    · intro hd
      simp [hw, hd]
    · intro hd
      simp [hw, hd]
  · intro k h13 h62
    obtain ⟨j, rfl⟩ : ∃ j, k = j + 1 := ⟨k - 1, by omega⟩
    have ih := inv j (by omega)
    have hs := drowning_step_facts (frameTrace rs s0 j) (rs j) ih.1 ih.2.2.1
      ih.2.1 ih.2.2.2.1 (H j (by omega))
    have hj12 : ((j : ℚ)) ≥ 12 := by
      have : 12 ≤ j := by omega
      exact_mod_cast this
    have hblk : (frameTrace rs s0 j).horse.drowningTimer + 16 ≥
        DROWNING_BLOCK_DELAY := by
      rw [ih.2.2.2.2]
      unfold DROWNING_BLOCK_DELAY
      linarith
    exact hs.2.2.2.2.1 hblk
  · have ih := inv 62 (by omega)
    have hend : (frameTrace rs s0 62).horse.drowningTimer + 16 ≥
        DROWNING_ANIMATION_DURATION := by
      rw [ih.2.2.2.2]
      unfold DROWNING_ANIMATION_DURATION
      norm_num
    exact drowning_step_ends (frameTrace rs s0 62) (rs 62) ih.1 ih.2.2.1
      ih.2.1 ih.2.2.2.1 hend

theorem spawnNewObjects_empty_noSpawn (f : ℚ) :
    spawnNewObjects [] f noSpawn = [] := by
  norm_num [spawnNewObjects, rightmostX, noSpawn, GAME_WIDTH,
    MUSHROOM_SPAWN_CHANCE, KEY_SPAWN_CHANCE]

theorem preCollisionState_empty_objs (s : GameState)
    (hobj : s.gameObjects = []) :
    (preCollisionState s noSpawn).gameObjects = [] := by
  simp only [preCollisionState, hobj, List.map_nil, ite_self,
    spawnNewObjects_empty_noSpawn, List.filter_nil]

theorem gameLoopStep_empty_objs (s : GameState) (hobj : s.gameObjects = []) :
    (gameLoopStep s noSpawn).gameObjects = [] := by
  unfold gameLoopStep
  split
  · exact hobj
  · have hm := preCollisionState_empty_objs s hobj
    simp [collisionPass, hm, collisionFoldAux]

theorem frameTrace_noSpawn_empty (s0 : GameState) (h : s0.gameObjects = []) :
    ∀ k, (frameTrace (fun _ => noSpawn) s0 k).gameObjects = []
  | 0 => h
  | k + 1 => gameLoopStep_empty_objs _ (frameTrace_noSpawn_empty s0 h k)

/-- C7 witness: a concrete run from first water contact with no other
entities ends exactly at frame 63. -/
theorem c7_drowning_timing_witness :
    (frameTrace (fun _ => noSpawn) c7state 63).gameRunning = false :=
  (c7_drowning_timing (fun _ => noSpawn) c7state rfl rfl rfl rfl rfl
    (fun k _ => by
      intro e he
      rw [preCollisionState_empty_objs _
        (frameTrace_noSpawn_empty c7state rfl k)] at he
      exact absurd he (List.not_mem_nil e))).2.2.2

theorem spawnNewObjects_prefix (l : List Entity) (f : ℚ) (r : SpawnRands) :
    ∃ tail, spawnNewObjects l f r = l ++ tail := by
  simp only [spawnNewObjects]
  split
  · exact ⟨_, rfl⟩
  · exact ⟨[], (List.append_nil l).symm⟩

theorem shifted_filter_xs (l : List Entity) (sp : ℚ) :
    ((l.map (fun o => { o with x := o.x - sp })).filter
      (fun o => decide (o.x > -100))).map (fun e => e.x) =
    (l.map (fun e => e.x - sp)).filter (fun q => decide (q > -100)) := by
  induction l with
  | nil => rfl
  | cons e rest ih =>
    simp only [List.map_cons, List.filter_cons,
      show ({ e with x := e.x - sp } : Entity).x = e.x - sp from rfl]
    by_cases hc : e.x - sp > -100
    · rw [decide_eq_true hc]
      simp [ih]
    · rw [decide_eq_false hc]
      simp [ih]

theorem filter_eq_self_of_gt (l : List Entity) (hx : ∀ e ∈ l, e.x > -100) :
    l.filter (fun o => decide (o.x > -100)) = l :=
  List.filter_eq_self.mpr (fun e he => decide_eq_true (hx e he))

/-- C8: in an executed frame whose (post-resolution) blocked flag is true,
every entity that existed in the previous frame keeps its x and the
distance is unchanged; in an unblocked frame the surviving previous
entities' x values are exactly the previous values shifted left by the
frame's current speed, and the distance grows by floor(speed/2). -/
theorem c8_block_freezes_world (prev : GameState) (r : SpawnRands)
    (hx : ∀ e ∈ prev.gameObjects, e.x > -100)
    (hst : prev.gameStarted = true) (hrn : prev.gameRunning = true)
    (hps : prev.gamePaused = false) :
    ((gameLoopStep prev r).horse.isBlocked = true →
      ((gameLoopStep prev r).gameObjects.take prev.gameObjects.length).map
          (fun e => e.x) =
        prev.gameObjects.map (fun e => e.x) ∧
      (gameLoopStep prev r).distance = prev.distance) ∧
    ((gameLoopStep prev r).horse.isBlocked = false →
      (((gameLoopStep prev r).gameObjects.map (fun e => e.x)).take
          ((prev.gameObjects.map (fun e => e.x - (gameLoopStep prev r).speed)).filter
            (fun q => decide (q > -100))).length =
        (prev.gameObjects.map (fun e => e.x - (gameLoopStep prev r).speed)).filter
          (fun q => decide (q > -100))) ∧
      (gameLoopStep prev r).distance =
        prev.distance +
          ((Int.floor ((gameLoopStep prev r).speed / 2) : ℤ) : ℚ)) := by
  have hstep := gameLoopStep_executed prev r hst hrn hps
  set m := preCollisionState prev r with hm
  have hpres := collisionPass_state_pres m
  have hxs := collisionPass_xs m
  have hblocked : (gameLoopStep prev r).horse.isBlocked = m.horse.isBlocked := by
    rw [hstep]; exact hpres.2.2.2.2
  have hspeed : (gameLoopStep prev r).speed = m.speed := by
    rw [hstep]; exact hpres.2.2.2.1
  have hdistance : (gameLoopStep prev r).distance = m.distance := by
    rw [hstep]; exact hpres.2.2.1
  have houtxs : (gameLoopStep prev r).gameObjects.map (fun e => e.x) =
      m.gameObjects.map (fun e => e.x) := by
    rw [hstep]; exact hxs
  have hobjs : m.gameObjects =
      (spawnNewObjects
        (if m.horse.isBlocked = false then
          prev.gameObjects.map (fun o => { o with x := o.x - m.speed })
        else prev.gameObjects)
        (frameSpeedFactor prev.distance) r).filter
        (fun o => decide (o.x > -100)) := rfl
  have hdist_eq : m.distance =
      (if m.horse.isBlocked = false then
        prev.distance + ((Int.floor (m.speed / 2) : ℤ) : ℚ)
      else prev.distance) := rfl
  constructor
  · intro hb
    have hmb : m.horse.isBlocked = true := by rw [← hblocked]; exact hb
    have hmbf : ¬ m.horse.isBlocked = false := by simp [hmb]
    rw [if_neg hmbf] at hobjs hdist_eq
    obtain ⟨tail, htail⟩ := spawnNewObjects_prefix prev.gameObjects
      (frameSpeedFactor prev.distance) r
    rw [htail, List.filter_append, filter_eq_self_of_gt _ hx] at hobjs
    constructor
    · rw [List.map_take, houtxs, hobjs, List.map_append]
      have hlen : prev.gameObjects.length =
          (prev.gameObjects.map (fun e => e.x)).length :=
        (List.length_map _ _).symm
      rw [hlen, List.take_left]
    · rw [hdistance, hdist_eq]
  · intro hb
    have hmb : m.horse.isBlocked = false := by rw [← hblocked]; exact hb
    rw [if_pos hmb] at hobjs hdist_eq
    obtain ⟨tail, htail⟩ := spawnNewObjects_prefix
      (prev.gameObjects.map (fun o => { o with x := o.x - m.speed }))
      (frameSpeedFactor prev.distance) r
    rw [htail, List.filter_append] at hobjs
    constructor
    · rw [houtxs, hobjs, List.map_append, shifted_filter_xs, hspeed]
      exact List.take_left _ _
    · rw [hdistance, hdist_eq, hspeed]

/-- C8 witness: the blocked drowning state keeps entity positions and
distance unchanged. -/
theorem c8_block_freezes_world_witness :
    ((gameLoopStep c4state noSpawn).gameObjects.take
        c4state.gameObjects.length).map (fun e => e.x) =
      c4state.gameObjects.map (fun e => e.x) ∧
    (gameLoopStep c4state noSpawn).distance = c4state.distance :=
  (c8_block_freezes_world c4state noSpawn (by simp [c4state]) rfl rfl rfl).1
    (by norm_num [gameLoopStep, preCollisionState, gravityStage, platformPass,
      clearBlockStage, drowningStage, groundStage, frameSpeedFactor, speedUpdate,
      spawnNewObjects, rightmostX, collisionPass, collisionFoldAux, collisionStep,
      c4state, noSpawn, hStand, GAME_WIDTH, GRAVITY, DROWNING_BLOCK_DELAY,
      DROWNING_ANIMATION_DURATION, GROUND_Y, HORSE_HEIGHT, MAX_SPEED_FACTOR,
      SPEED_FACTOR_INCREASE_RATE, MIN_OBSTACLE_SPACING, MAX_OBSTACLE_SPACING,
      MUSHROOM_SPAWN_CHANCE, KEY_SPAWN_CHANCE, min_def, max_def])

end HorseRunner
